import Mathlib

/-!
Verification of the a2a-samples chat client and server entry point.

The development shallowly embeds the repository logic:
* `src/streamlit_app.py` — the Streamlit chat UI: non-streaming response
  normalization, streaming chunk consumption, terminal-task retry,
  `send_message_to_agent`, `fetch_agent_card`, the connect and clear-chat
  handlers;
* `src/app/__main__.py` — startup credential validation.

Pure functions of the source become Lean functions; network and widget
effects are passed in explicitly as oracle data (outcomes of sends,
streamed chunk lists, fetch results).
-/

namespace A2ASamples

/-- Whether the first character list is an initial segment of the
second. -/
def listIsPre : List Char → List Char → Bool
  | [], _ => true
  | _ :: _, [] => false
  | p :: ps, c :: cs => p == c && listIsPre ps cs

/-- Whether the second character list occurs inside the first. -/
def listContainsSub : List Char → List Char → Bool
  | [], sub => sub.isEmpty
  | c :: rest, sub => listIsPre sub (c :: rest) || listContainsSub rest sub

/-- Python substring test `sub in s` for strings, used by the error
pattern match `'terminal state' in error_msg or 'completed' in error_msg`. -/
def containsSub (s sub : String) : Bool :=
  listContainsSub s.data sub.data

/-- The terminal-task error pattern of `streamlit_app.py` lines 383 and 417:
`'terminal state' in str(e) or 'completed' in str(e)`. -/
def isTerminalError (msg : String) : Bool :=
  containsSub msg "terminal state" || containsSub msg "completed"

/-- Python `sep.join(xs)`. -/
def pyJoin (sep : String) : List String → String
  | [] => ""
  | [x] => x
  | x :: y :: xs => x ++ sep ++ pyJoin sep (y :: xs)

/-- A content part of a message or artifact: a dict that may carry a
`kind` entry and a `text` entry (`none` models an absent key). -/
structure NPart where
  kind : Option String := none
  text : Option String := none
deriving Repr, DecidableEq

/-- A dict with a `parts` list — the shape of status messages, artifacts
and history messages as read by the UI. -/
structure SParts where
  parts : List NPart := []
deriving Repr, DecidableEq

/-- A task `status` dict: optional `state` and optional `message`. -/
structure NStatus where
  state : Option String := none
  message : Option SParts := none
deriving Repr, DecidableEq

/-- The `result` member of a non-streaming response, as read by the
normalizer: optional `context_id`, `id`, `status`, `artifacts`,
`messages` keys. -/
structure NResult where
  context_id : Option String := none
  id : Option String := none
  status : Option NStatus := none
  artifacts : Option (List SParts) := none
  messages : Option (List SParts) := none
deriving Repr, DecidableEq

/-- The loop `for part in parts: if 'text' in part: assistant_message =
part['text']; break` — the first part bearing a `text` key wins, even
when its text is empty. -/
def firstTextKey : List NPart → Option String
  | [] => none
  | p :: rest =>
    match p.text with
    | some t => some t
    | none => firstTextKey rest

/-- Python truthiness of the running `assistant_message` value:
`None` and the empty string are falsy. -/
def truthyS : Option String → Bool
  | none => false
  | some t => !(t == "")

/-- The artifact loop of `streamlit_app.py` lines 465-473: each artifact
sets `assistant_message` to its first text-keyed part (when one exists),
and the outer loop breaks as soon as the value is truthy. -/
def scanArtifactsS (am : Option String) : List SParts → Option String
  | [] => am
  | a :: rest =>
    let am' := match firstTextKey a.parts with
      | some t => some t
      | none => am
    if truthyS am' then am' else scanArtifactsS am' rest

/-- Lines 447-459: when `status.get('state','')` is input-required and the
status has a `message` key, take its first text-keyed part. -/
def stageOne (r : NResult) : Option String :=
  let status := r.status.getD {}
  let state := status.state.getD ""
  if state == "input-required" then
    match status.message with
    | some m => firstTextKey m.parts
    | none => none
  else none

/-- Lines 461-473: when the running value is falsy, scan the artifacts. -/
def stageTwo (r : NResult) (am : Option String) : Option String :=
  if truthyS am then am
  else
    let artifacts := r.artifacts.getD []
    if !artifacts.isEmpty then scanArtifactsS am artifacts else am

/-- Lines 475-485: when the running value is still falsy, look at the
first text-keyed part of the last entry of `messages`. -/
def stageThree (r : NResult) (am : Option String) : Option String :=
  if truthyS am then am
  else
    match (r.messages.getD []).getLast? with
    | some lastm =>
      (match firstTextKey lastm.parts with
       | some t => some t
       | none => am)
    | none => am

/-- Lines 487-490: the fallback when the final value is falsy. -/
def displayFinal : Option String → String
  | none => "Response received (no text content)"
  | some t => if t == "" then "Response received (no text content)" else t

/-- The non-streaming normalizer, `streamlit_app.py` lines 447-490:
input-required status message first, then artifacts, then the last
entry of `messages`, with the fixed fallback text. -/
def nonStreamingNormalize (r : NResult) : String :=
  displayFinal (stageThree r (stageTwo r (stageOne r)))

/-- Keep an optional string only when it is truthy. -/
def keepTruthy : Option String → Option String
  | none => none
  | some t => if t == "" then none else some t

/-- First artifact whose first text-keyed part is non-empty. -/
def firstTruthyArtifact : List SParts → Option String
  | [] => none
  | a :: rest =>
    match firstTextKey a.parts with
    | some t => if t == "" then firstTruthyArtifact rest else some t
    | none => firstTruthyArtifact rest

/-- Modelled from the amended spec wording: the status stage considers
the status message only when the state is input-required, and yields the
first text-keyed part of that message. -/
def amendedStageOne (r : NResult) : Option String :=
  match r.status with
  | some st =>
    if st.state == some "input-required" then
      match st.message with
      | some m => firstTextKey m.parts
      | none => none
    else none
  | none => none

/-- Modelled from the amended spec wording: a stage-pure search that, in
order, inspects the input-required status message, the artifacts, and
the last history message; at each stage the first text-keyed part is
taken and kept only when non-empty, otherwise the search falls through. -/
def amendedSearch (r : NResult) : String :=
  match keepTruthy (amendedStageOne r) with
  | some t => t
  | none =>
    match firstTruthyArtifact (r.artifacts.getD []) with
    | some t => t
    | none =>
      match (r.messages.getD []).getLast? with
      | some lastm =>
        (match keepTruthy (firstTextKey lastm.parts) with
         | some t => t
         | none => "Response received (no text content)")
      | none => "Response received (no text content)"

/-! ### Streaming mode (`streamlit_app.py` lines 270-397) -/

/-- The part loops of the working and artifact-update branches, lines
332-340 and 351-359: a part contributes when its `kind` is text or it
has a `text` key, and the text is appended when non-empty. -/
def appendParts (acc : List String) (parts : List NPart) : List String :=
  parts.foldl (fun acc p =>
    if p.kind == some "text" || p.text.isSome then
      let t := p.text.getD ""
      if t == "" then acc else acc ++ [t]
    else acc) acc

/-- The input-required part loop, lines 365-373: same as `appendParts`
but a text already present in the collected list is not appended. -/
def appendPartsDedup (acc : List String) (parts : List NPart) : List String :=
  parts.foldl (fun acc p =>
    if p.kind == some "text" || p.text.isSome then
      let t := p.text.getD ""
      if t == "" then acc
      else if acc.contains t then acc else acc ++ [t]
    else acc) acc

/-- The `result` member of a streaming chunk as read by the stream loop:
context and task identifiers in either naming convention, the update
`kind`, an `artifact` and a `status`. `none` models an absent key. -/
structure SResult where
  contextId : Option String := none
  context_id : Option String := none
  taskId : Option String := none
  id : Option String := none
  kind : Option String := none
  artifact : Option SParts := none
  status : Option NStatus := none
deriving Repr, DecidableEq

/-- The session data the stream loop mutates: the collected display
lines and the conversation identifiers. -/
structure StreamSession where
  collected : List String
  context_id : String
  task_id : Option String
deriving Repr, DecidableEq

/-- One iteration of the chunk consumption loop, lines 306-378: a chunk
without a `result` key is skipped; otherwise the context and task
identifiers are updated and the chunk text is appended according to the
update kind and state. -/
def processChunk (s : StreamSession) (chunk : Option SResult) : StreamSession :=
  match chunk with
  | none => s
  | some r =>
    let ctx := match r.contextId with
      | some c => c
      | none => match r.context_id with
        | some c => c
        | none => s.context_id
    let task := match r.taskId with
      | some t => some t
      | none => match r.id with
        | some t => some t
        | none => s.task_id
    let kind := r.kind.getD ""
    let collected :=
      if kind == "artifact-update" then
        appendParts s.collected ((r.artifact.getD {}).parts)
      else if kind == "status-update" then
        let status := r.status.getD {}
        let state := status.state.getD ""
        if state == "working" then
          match status.message with
          | some m => appendParts s.collected m.parts
          | none => s.collected
        else if state == "input-required" then
          match status.message with
          | some m => appendPartsDedup s.collected m.parts
          | none => s.collected
        else s.collected
      else s.collected
    { collected := collected, context_id := ctx, task_id := task }

/-- The whole chunk loop over a finished stream. -/
def runChunks (s : StreamSession) (chunks : List (Option SResult)) : StreamSession :=
  chunks.foldl processChunk s

/-- Lines 396-397: the assistant message saved after streaming. -/
def streamFinalMessage (collected : List String) : String :=
  if collected.isEmpty then "Response received (no text content)"
  else pyJoin "\n\n" collected

/-- A realistic working status-update chunk with one text part. -/
def mkWorkingChunk (t : String) : Option SResult :=
  some { kind := some "status-update",
         status := some { state := some "working",
                          message := some ⟨[⟨some "text", some t⟩]⟩ } }

/-- A realistic input-required status-update chunk with one text part. -/
def mkInputRequiredChunk (t : String) : Option SResult :=
  some { kind := some "status-update",
         status := some { state := some "input-required",
                          message := some ⟨[⟨some "text", some t⟩]⟩ } }

/-- A realistic artifact-update chunk with one text part. -/
def mkArtifactChunk (t : String) : Option SResult :=
  some { kind := some "artifact-update",
         artifact := some ⟨[⟨some "text", some t⟩]⟩ }

/-- The outcome of one streaming attempt, as seen by `stream_response`:
the stream either completes after yielding the chunks, or yields some
chunks and then raises with the given error text. -/
inductive StreamAttempt where
  | success (chunks : List (Option SResult))
  | failure (chunks : List (Option SResult)) (errMsg : String)
deriving Repr, DecidableEq

/-- The observable data of one streaming send: the user text, the
context and task identifiers attached to the outgoing message, and the
collected display lines at the moment the send is issued. -/
structure StreamCall where
  message : String
  context_id : String
  task_id : Option String
  collectedAtCall : List String
deriving Repr, DecidableEq

/-- `stream_response` with its recursive exception handler, lines
276-390: each attempt consumes its chunks; a terminal-state failure
clears the task identifier and the collected text and recurses on the
remaining script of attempt outcomes; any other failure stops. Returns
the final session together with the list of sends that were issued. -/
def streamTurn (prompt : String) :
    StreamSession → List StreamAttempt → StreamSession × List StreamCall
  | st, [] => (st, [])
  | st, att :: rest =>
    let call : StreamCall := ⟨prompt, st.context_id, st.task_id, st.collected⟩
    match att with
    | .success chunks => (runChunks st chunks, [call])
    | .failure chunks e =>
      let st1 := runChunks st chunks
      if isTerminalError e then
        let next := streamTurn prompt ⟨[], st1.context_id, none⟩ rest
        (next.1, call :: next.2)
      else (st1, [call])

/-! ### `send_message_to_agent` (lines 151-242) and the non-streaming
retry (lines 401-434) -/

/-- The `result` member of a buffered response dict as read and written
by `send_message_to_agent`. -/
structure BResult where
  status : Option NStatus := none
  artifacts : Option (List SParts) := none
deriving Repr, DecidableEq

/-- The dictionary returned by `send_message_to_agent`: either an error
member or a `result` member. -/
inductive SendDict where
  | errorDict (msg : String)
  | okDict (result : BResult)
deriving Repr, DecidableEq

/-- The chunk collection loop of lines 194-213: every text-keyed part of
every status message is collected (empty texts included), and the last
chunk carrying a `result` key is remembered. -/
def sendCollect : List (Option BResult) → List String → Option BResult →
    List String × Option BResult
  | [], acc, fin => (acc, fin)
  | c :: rest, acc, fin =>
    match c with
    | none => sendCollect rest acc fin
    | some r =>
      let acc' := match (r.status.getD {}).message with
        | some m => acc ++ m.parts.filterMap (·.text)
        | none => acc
      sendCollect rest acc' (some r)

/-- What the wrapped send does, as observed by `send_message_to_agent`:
an exception anywhere inside the `try`, a buffered response dict, or a
finished stream of chunks. -/
inductive SendBehavior where
  | raises (e : String)
  | nonStreamReturns (d : SendDict)
  | streamYields (chunks : List (Option BResult))
deriving Repr, DecidableEq

/-- `send_message_to_agent`, lines 151-242: exceptions become
`{"error": str(e)}`; a stream with no result-bearing chunk becomes
`{"error": "No response received"}`; otherwise the collected status text
is appended to the final response as an extra artifact. -/
def send_message_to_agent : SendBehavior → SendDict
  | .raises e => .errorDict e
  | .nonStreamReturns d => d
  | .streamYields chunks =>
    match sendCollect chunks [] none with
    | (collected, fin) =>
      match fin with
      | none => .errorDict "No response received"
      | some r =>
        if collected.isEmpty then .okDict r
        else .okDict { r with
          artifacts := some ((r.artifacts.getD []) ++
            [⟨[⟨none, some (pyJoin "\n" collected)⟩]⟩]) }

/-- The data of one non-streaming send: user text and the identifiers
attached to the outgoing message. -/
structure SendCall where
  message : String
  context_id : String
  task_id : Option String
deriving Repr, DecidableEq

/-- The non-streaming send with the terminal-task retry of lines
401-434: when the first send yields an error dict whose message matches
the terminal pattern, the task identifier is cleared and the identical
input is resubmitted once under the unchanged context identifier.
Returns the list of sends issued and the final response dict. -/
def nonStreamingSendWithRetry (agent : SendCall → SendDict)
    (ctx : String) (task : Option String) (prompt : String) :
    List SendCall × SendDict :=
  let c1 : SendCall := ⟨prompt, ctx, task⟩
  match agent c1 with
  | .errorDict e =>
    if isTerminalError e then
      let c2 : SendCall := ⟨prompt, ctx, none⟩
      ([c1, c2], agent c2)
    else ([c1], .errorDict e)
  | .okDict r => ([c1], .okDict r)

/-! ### JSON-level model of the non-streaming parse (lines 436-505)

The structured normalizer above covers shape-conforming responses; the
model below embeds the same code over arbitrary JSON values, with the
Python failure semantics of each primitive, so that responses whose
shape makes the code raise can be reasoned about. -/

/-- A JSON value as produced by `model_dump(mode='json')`. -/
inductive JValue where
  | jnull
  | jbool (b : Bool)
  | jnum (n : Int)
  | jstr (s : String)
  | jarr (xs : List JValue)
  | jobj (fields : List (String × JValue))

/-- Association lookup in a dict. -/
def jLookup : List (String × JValue) → String → Option JValue
  | [], _ => none
  | (k, v) :: rest, key => if k == key then some v else jLookup rest key

/-- Python `v.get(key, default)`: defined on dicts, `AttributeError`
otherwise. -/
def jGet (v : JValue) (key : String) (dflt : JValue) : Except String JValue :=
  match v with
  | .jobj fs => .ok ((jLookup fs key).getD dflt)
  | _ => .error "AttributeError: get"

/-- Python `x == key` for a string literal `key`: only an equal string
compares equal. -/
def jeqStr (v : JValue) (key : String) : Bool :=
  match v with
  | .jstr s => s == key
  | _ => false

/-- Python `key in v`: key test on dicts, element test on lists,
substring test on strings, `TypeError` otherwise. -/
def jContains (v : JValue) (key : String) : Except String Bool :=
  match v with
  | .jobj fs => .ok (fs.any (fun p => p.1 == key))
  | .jarr xs => .ok (xs.any (fun x => jeqStr x key))
  | .jstr s => .ok (containsSub s key)
  | _ => .error "TypeError: not a container"

/-- Python `v[key]` with a string key: `KeyError` on a missing dict key,
`TypeError` on anything that is not a dict. -/
def jIndex (v : JValue) (key : String) : Except String JValue :=
  match v with
  | .jobj fs =>
    match jLookup fs key with
    | some x => .ok x
    | none => .error "KeyError"
  | _ => .error "TypeError: subscript"

/-- Python `v[-1]`: last element of a list, last character of a string,
`KeyError` on a dict, `TypeError` otherwise. -/
def jLast (v : JValue) : Except String JValue :=
  match v with
  | .jarr xs =>
    match xs.getLast? with
    | some x => .ok x
    | none => .error "IndexError"
  | .jstr s =>
    match s.data.getLast? with
    | some c => .ok (.jstr (String.singleton c))
    | none => .error "IndexError"
  | .jobj _ => .error "KeyError"
  | _ => .error "TypeError: subscript"

/-- Python truthiness of a JSON value. -/
def jTruthy : JValue → Bool
  | .jnull => false
  | .jbool b => b
  | .jnum n => !(n == 0)
  | .jstr s => !(s == "")
  | .jarr xs => !xs.isEmpty
  | .jobj fs => !fs.isEmpty

/-- Python iteration `for x in v`: elements of a list, characters of a
string, keys of a dict, `TypeError` otherwise. -/
def jIter (v : JValue) : Except String (List JValue) :=
  match v with
  | .jarr xs => .ok xs
  | .jstr s => .ok (s.data.map (fun c => .jstr (String.singleton c)))
  | .jobj fs => .ok (fs.map (fun p => .jstr p.1))
  | _ => .error "TypeError: not iterable"

/-- Truthiness of the running `assistant_message`. -/
def truthyJO : Option JValue → Bool
  | none => false
  | some v => jTruthy v

/-- The part loop of lines 455-459 (and 481-485): first part with a
`text` key wins; failures of `in` or of the subscript propagate. -/
def findTextPart : List JValue → Except String (Option JValue)
  | [] => .ok none
  | p :: rest => do
    let b ← jContains p "text"
    if b then do
      let t ← jIndex p "text"
      pure (some t)
    else findTextPart rest

/-- The artifact loop of lines 465-473 over JSON values. -/
def scanArtifactsJ : Option JValue → List JValue → Except String (Option JValue)
  | am, [] => .ok am
  | am, a :: rest => do
    let parts ← jGet a "parts" (.jarr [])
    let items ← jIter parts
    let found ← findTextPart items
    let am' := match found with
      | some t => some t
      | none => am
    if truthyJO am' then pure am' else scanArtifactsJ am' rest

/-- The session updates and display text computed by the parse. -/
structure ParsedTurn where
  contextUpd : Option JValue
  taskUpd : Option JValue
  assistantMessage : JValue

/-- The body of the `try` block at lines 437-493 over an arbitrary
response dict: identifier updates, then the three-stage text search with
its fallback. An error value models the exception reaching the `except`
clause. -/
def parseResponse (rd : JValue) : Except String ParsedTurn := do
  let result ← jGet rd "result" (.jobj [])
  let hasCtx ← jContains result "context_id"
  let ctxUpd ← if hasCtx then do
      let v ← jIndex result "context_id"
      pure (some v)
    else pure none
  let hasId ← jContains result "id"
  let taskUpd ← if hasId then do
      let v ← jIndex result "id"
      pure (some v)
    else pure none
  let status ← jGet result "status" (.jobj [])
  let state ← jGet status "state" (.jstr "")
  let am1 ← if jeqStr state "input-required" then do
      let hasMsg ← jContains status "message"
      if hasMsg then do
        let sm ← jIndex status "message"
        let parts ← jGet sm "parts" (.jarr [])
        let items ← jIter parts
        findTextPart items
      else pure none
    else pure (none : Option JValue)
  let am2 ← if truthyJO am1 then pure am1
    else do
      let artifacts ← jGet result "artifacts" (.jarr [])
      if jTruthy artifacts then do
        let items ← jIter artifacts
        scanArtifactsJ am1 items
      else pure am1
  let am3 ← if truthyJO am2 then pure am2
    else do
      let messages ← jGet result "messages" (.jarr [])
      if jTruthy messages then do
        let lastm ← jLast messages
        let parts ← jGet lastm "parts" (.jarr [])
        let items ← jIter parts
        let f ← findTextPart items
        pure (match f with
          | some t => some t
          | none => am2)
      else pure am2
  let amF : JValue := match am3 with
    | some t =>
      if jTruthy t then t else .jstr "Response received (no text content)"
    | none => .jstr "Response received (no text content)"
  pure ⟨ctxUpd, taskUpd, amF⟩

/-- An entry of `st.session_state.messages`. -/
structure ChatMessage where
  role : String
  content : JValue

/-- Lines 495-497: the `except` clause replaces the assistant message by
the generic parse-error text; otherwise the parsed text is used. -/
def handleParsedResponse (rd : JValue) : JValue :=
  match parseResponse rd with
  | .ok pt => pt.assistantMessage
  | .error _ => .jstr "Error parsing response"

/-- Lines 503-505: the assistant message is appended to the history, so
the conversation continues with the parse outcome as the reply. -/
def afterTurnMessages (history : List ChatMessage) (rd : JValue) :
    List ChatMessage :=
  history ++ [⟨"assistant", handleParsedResponse rd⟩]

/-! ### Server startup validation (`src/app/__main__.py` lines 41-128) -/

/-- The environment variables read by `main`; `none` models unset. -/
structure Env where
  model_source : Option String := none
  GOOGLE_API_KEY : Option String := none
  TOOL_LLM_URL : Option String := none
  TOOL_LLM_NAME : Option String := none
deriving Repr, DecidableEq

/-- Python falsiness of `os.getenv(...)`: unset or empty. -/
def envFalsy : Option String → Bool
  | none => true
  | some s => s == ""

/-- Whether the process reaches the server construction or exits. -/
inductive StartupResult where
  | serverStarted
  | exitCode (code : Nat)
deriving Repr, DecidableEq

/-- Lines 44-57: the credential validation that raises
`MissingAPIKeyError`. -/
def credentialCheck (env : Env) : Except String Unit :=
  if env.model_source.getD "google" == "google" then
    if envFalsy env.GOOGLE_API_KEY then
      .error "GOOGLE_API_KEY environment variable not set."
    else .ok ()
  else if envFalsy env.TOOL_LLM_URL then
    .error "TOOL_LLM_URL environment variable not set."
  else if envFalsy env.TOOL_LLM_NAME then
    .error "TOOL_LLM_NAME environment not variable not set."
  else .ok ()

/-- `main` up to the point the server is handed to uvicorn: a failed
credential check is caught at lines 123-125 and the process exits with
code 1; otherwise control reaches the server construction. -/
def mainStartup (env : Env) : StartupResult :=
  match credentialCheck env with
  | .error _ => .exitCode 1
  | .ok () => .serverStarted

/-! ### Agent card fetch and connect handler (lines 105-148, 245-256) -/

/-- The fields of the fetched agent card the UI logic reads. -/
structure AgentCardM where
  name : String := ""
  supports_authenticated_extended_card : Option Bool := none
deriving Repr, DecidableEq

/-- The outcomes of the three possible card fetches: the default
well-known path, the legacy fallback path, and the authenticated
extended path. An error value models a raised transport exception. -/
structure CardFetchEnv where
  primary : Except String AgentCardM
  fallback : Except String AgentCardM
  extended : Except String AgentCardM

/-- `fetch_agent_card`, lines 105-148: try the default path, then the
fallback path; re-raising after both fail is caught by the outer handler
which returns `None`. When the card advertises the extended card and a
token is present, a failed extended fetch falls back to the public
card. -/
def fetch_agent_card (env : CardFetchEnv) (auth_token : String) :
    Option AgentCardM :=
  let afterCard : AgentCardM → Option AgentCardM := fun c =>
    if (c.supports_authenticated_extended_card == some true)
        && !(auth_token == "") then
      match env.extended with
      | .ok e => some e
      | .error _ => some c
    else some c
  match env.primary with
  | .ok c => afterCard c
  | .error _ =>
    match env.fallback with
    | .ok c => afterCard c
    | .error _ => none

/-- What the connect button handler shows, lines 245-256. -/
inductive ConnectOutcome where
  | connected (card : AgentCardM)
  | showError (msg : String)
deriving Repr, DecidableEq

/-- Lines 249-256: a fetched card connects; `None` surfaces the
failed-to-connect error text. -/
def connectHandler (fetched : Option AgentCardM) : ConnectOutcome :=
  match fetched with
  | some card => .connected card
  | none =>
    .showError "Failed to connect to agent. Please check the URL and try again."

/-! ### Clear-chat handler (lines 84-89) -/

/-- The session state and configuration widget values of the app. -/
structure AppState where
  messages : List ChatMessage
  context_id : String
  task_id : Option String
  agent_card : Option AgentCardM
  client_initialized : Bool
  base_url : String
  use_auth : Bool
  auth_token : String
  streaming_mode : Bool

/-- The clear-chat handler: empty the history, adopt a freshly generated
context identifier, clear the task identifier. -/
def clearChatHandler (freshContext : String) (s : AppState) : AppState :=
  { s with messages := [], context_id := freshContext, task_id := none }

/-! ### Supporting lemmas -/

theorem stageOne_eq_amended (r : NResult) : stageOne r = amendedStageOne r := by
  unfold stageOne amendedStageOne
  cases hs : r.status with
  | none => simp
  | some st =>
    cases hst : st.state with
    | none => simp [hst]
    | some s => simp [hst]

theorem keepTruthy_falsy (o : Option String) (h : truthyS o = false) :
    keepTruthy o = none := by
  cases o with
  | none => rfl
  | some t =>
    simp [truthyS] at h
    simp [keepTruthy, h]

theorem displayFinal_falsy (o : Option String) (h : truthyS o = false) :
    displayFinal o = "Response received (no text content)" := by
  cases o with
  | none => rfl
  | some t =>
    simp [truthyS] at h
    simp [displayFinal, h]

theorem firstTruthyArtifact_nonempty (as : List SParts) (t : String)
    (h : firstTruthyArtifact as = some t) : (t == "") = false := by
  induction as with
  | nil => simp [firstTruthyArtifact] at h
  | cons a rest ih =>
    unfold firstTruthyArtifact at h
    cases hft : firstTextKey a.parts with
    | none => rw [hft] at h; exact ih h
    | some u =>
      rw [hft] at h
      dsimp only at h
      by_cases hu : (u == "") = true
      · rw [if_pos hu] at h; exact ih h
      · rw [if_neg hu] at h
        cases h
        simpa using hu

theorem scan_eq_firstTruthy (as : List SParts) (am : Option String) (t : String)
    (ham : truthyS am = false) (h : firstTruthyArtifact as = some t) :
    scanArtifactsS am as = some t := by
  induction as generalizing am with
  | nil => simp [firstTruthyArtifact] at h
  | cons a rest ih =>
    unfold firstTruthyArtifact at h
    unfold scanArtifactsS
    cases hft : firstTextKey a.parts with
    | none =>
      rw [hft] at h
      dsimp only at h ⊢
      rw [if_neg (by simp [ham])]
      exact ih am ham h
    | some u =>
      rw [hft] at h
      dsimp only at h ⊢
      by_cases hu : (u == "") = true
      · rw [if_pos hu] at h
        have hfu : truthyS (some u) = false := by simp [truthyS, hu]
        rw [if_neg (by simp [hfu])]
        exact ih (some u) hfu h
      · rw [if_neg hu] at h
        cases h
        rw [if_pos (by simp [truthyS, hu])]

theorem scan_falsy (as : List SParts) (am : Option String)
    (ham : truthyS am = false) (h : firstTruthyArtifact as = none) :
    truthyS (scanArtifactsS am as) = false := by
  induction as generalizing am with
  | nil => simpa [scanArtifactsS] using ham
  | cons a rest ih =>
    unfold firstTruthyArtifact at h
    unfold scanArtifactsS
    cases hft : firstTextKey a.parts with
    | none =>
      rw [hft] at h
      dsimp only at h ⊢
      rw [if_neg (by simp [ham])]
      exact ih am ham h
    | some u =>
      rw [hft] at h
      dsimp only at h ⊢
      by_cases hu : (u == "") = true
      · rw [if_pos hu] at h
        have hfu : truthyS (some u) = false := by simp [truthyS, hu]
        rw [if_neg (by simp [hfu])]
        exact ih (some u) hfu h
      · rw [if_neg hu] at h
        exact absurd h (by simp)

theorem stageTwo_falsy (r : NResult) (am : Option String)
    (ham : truthyS am = false)
    (h : firstTruthyArtifact (r.artifacts.getD []) = none) :
    truthyS (stageTwo r am) = false := by
  unfold stageTwo
  rw [if_neg (by simp [ham])]
  by_cases he : (r.artifacts.getD []).isEmpty = true
  · simpa [he] using ham
  · simp only [he]
    simpa using scan_falsy _ am ham h

theorem stageTwo_truthy (r : NResult) (t : String) (hne : (t == "") = false) :
    stageTwo r (some t) = some t := by
  unfold stageTwo
  rw [if_pos (by simp [truthyS, hne])]

theorem stageThree_truthy (r : NResult) (t : String) (hne : (t == "") = false) :
    stageThree r (some t) = some t := by
  unfold stageThree
  rw [if_pos (by simp [truthyS, hne])]

theorem appendParts_single (acc : List String) (t : String) (h : t ≠ "") :
    appendParts acc [⟨some "text", some t⟩] = acc ++ [t] := by
  simp [appendParts, h]

theorem appendPartsDedup_single (acc : List String) (t : String) (h : t ≠ "") :
    appendPartsDedup acc [⟨some "text", some t⟩] =
      (if acc.contains t then acc else acc ++ [t]) := by
  simp [appendPartsDedup, h]

theorem processChunk_working (s : StreamSession) (t : String) (h : t ≠ "") :
    processChunk s (mkWorkingChunk t) =
      { s with collected := s.collected ++ [t] } := by
  simp [processChunk, mkWorkingChunk, appendParts_single _ _ h]

theorem processChunk_artifact (s : StreamSession) (t : String) (h : t ≠ "") :
    processChunk s (mkArtifactChunk t) =
      { s with collected := s.collected ++ [t] } := by
  simp [processChunk, mkArtifactChunk, appendParts_single _ _ h]

theorem processChunk_inputRequired (s : StreamSession) (t : String) (h : t ≠ "") :
    processChunk s (mkInputRequiredChunk t) =
      { s with collected := if s.collected.contains t then s.collected
                            else s.collected ++ [t] } := by
  simp [processChunk, mkInputRequiredChunk, appendPartsDedup_single _ _ h]

theorem streamTurn_first_call (prompt : String) (st : StreamSession)
    (att : StreamAttempt) (rest : List StreamAttempt) :
    ((streamTurn prompt st (att :: rest)).2).get? 0 =
      some ⟨prompt, st.context_id, st.task_id, st.collected⟩ := by
  cases att with
  | success chunks => rfl
  | failure chunks e =>
    unfold streamTurn
    dsimp only
    by_cases h : isTerminalError e = true
    · rw [if_pos h]; rfl
    · rw [if_neg h]; rfl

/-! ### Claim theorems -/

/-- Claim C1, amended: the non-streaming normalizer coincides with the
stage-pure search that, in order, inspects the input-required status
message, the artifacts, and the last history message, where each stage
contributes only the first text-keyed part it finds, kept only when the
text is non-empty; the fixed fallback is displayed when every stage
falls through. -/
theorem c1_normalizer_search_order (r : NResult) :
    nonStreamingNormalize r = amendedSearch r := by
  unfold nonStreamingNormalize amendedSearch
  rw [stageOne_eq_amended]
  by_cases h1 : truthyS (amendedStageOne r) = true
  · obtain ⟨t, ht⟩ : ∃ t, amendedStageOne r = some t := by
      cases ha : amendedStageOne r with
      | none => rw [ha] at h1; simp [truthyS] at h1
      | some t => exact ⟨t, rfl⟩
    rw [ht] at h1 ⊢
    have hne : (t == "") = false := by simpa [truthyS] using h1
    rw [stageTwo_truthy r t hne, stageThree_truthy r t hne]
    simp [displayFinal, keepTruthy, hne]
  · have h1f : truthyS (amendedStageOne r) = false := by
      simpa using h1
    rw [keepTruthy_falsy _ h1f]
    cases hft : firstTruthyArtifact (r.artifacts.getD []) with
    | some t =>
      have hne := firstTruthyArtifact_nonempty _ _ hft
      have harts : (r.artifacts.getD []).isEmpty = false := by
        cases harr : r.artifacts.getD [] with
        | nil => rw [harr] at hft; simp [firstTruthyArtifact] at hft
        | cons a rest => simp
      have h2 : stageTwo r (amendedStageOne r) = some t := by
        unfold stageTwo
        rw [if_neg (by simp [h1f])]
        dsimp only
        rw [harts]
        simpa using scan_eq_firstTruthy _ _ _ h1f hft
      rw [h2, stageThree_truthy r t hne]
      simp [displayFinal, hne]
    | none =>
      have h2f : truthyS (stageTwo r (amendedStageOne r)) = false :=
        stageTwo_falsy r _ h1f hft
      unfold stageThree
      rw [if_neg (by simp [h2f])]
      cases hl : (r.messages.getD []).getLast? with
      | none =>
        dsimp only
        exact displayFinal_falsy _ h2f
      | some lastm =>
        dsimp only
        cases hftk : firstTextKey lastm.parts with
        | none =>
          dsimp only
          rw [keepTruthy]
          exact displayFinal_falsy _ h2f
        | some t =>
          dsimp only
          by_cases hte : (t == "") = true
          · simp [keepTruthy, displayFinal, hte]
          · simp [keepTruthy, displayFinal, hte]

/-- The response of `c1_normalizer_counterexample`: an input-required
status message whose parts are an empty text part followed by the
non-empty text part Q, next to an artifact with non-empty text A. -/
def c1ex : NResult :=
  { status := some { state := some "input-required",
                     message := some ⟨[⟨none, some ""⟩, ⟨none, some "Q"⟩]⟩ },
    artifacts := some [⟨[⟨none, some "A"⟩]⟩] }

/-- Claim C1, counterexample: the response `c1ex` carries both a non-empty
artifact text (A) and an input-required status message carrying the
non-empty text Q, yet the normalizer displays the artifact text A — the
first non-empty text in the claimed search order, Q, is not displayed,
because the empty first text part of the status message makes the status
stage fall through. -/
theorem c1_normalizer_counterexample :
    nonStreamingNormalize c1ex = "A" ∧ nonStreamingNormalize c1ex ≠ "Q" := by
  constructor
  · rfl
  · decide

/-- Claim C2: a send failing with a terminal-state error is resubmitted
with the identical user input, a cleared task id and the context id
unchanged from before the error; in streaming mode the collected text is
cleared before the resubmission. The non-streaming conjunct exhibits the
exact two-call trace; the streaming conjunct shows the second issued
call carries the same prompt, the post-chunk context id, a `none` task
id, and an empty collected list. -/
theorem c2_terminal_retry_resubmission
    (agent : SendCall → SendDict) (ctx : String) (task : Option String)
    (prompt e : String) (st : StreamSession)
    (chunks : List (Option SResult)) (e' p' : String)
    (att : StreamAttempt) (rest : List StreamAttempt)
    (h1 : agent ⟨prompt, ctx, task⟩ = .errorDict e)
    (h2 : isTerminalError e = true)
    (h3 : isTerminalError e' = true) :
    (nonStreamingSendWithRetry agent ctx task prompt).1 =
      [⟨prompt, ctx, task⟩, ⟨prompt, ctx, none⟩]
    ∧ ((streamTurn p' st (.failure chunks e' :: att :: rest)).2).get? 1 =
      some ⟨p', (runChunks st chunks).context_id, none, []⟩ := by
  constructor
  · unfold nonStreamingSendWithRetry
    dsimp only
    rw [h1]
    dsimp only
    rw [if_pos h2]
  · unfold streamTurn
    dsimp only
    rw [if_pos h3]
    have hfirst := streamTurn_first_call p'
      ⟨[], (runChunks st chunks).context_id, none⟩ att rest
    simpa using hfirst

/-- Witness for C2 at a concrete agent, session and attempt script. -/
theorem c2_terminal_retry_resubmission_witness :
    (nonStreamingSendWithRetry (fun _ => .errorDict "task is in terminal state")
        "ctx0" (some "task0") "hello").1 =
      [⟨"hello", "ctx0", some "task0"⟩, ⟨"hello", "ctx0", none⟩]
    ∧ ((streamTurn "hello" ⟨["old"], "ctx1", some "task1"⟩
        (.failure [] "terminal state reached" :: .success [] :: [])).2).get? 1 =
      some ⟨"hello",
        (runChunks ⟨["old"], "ctx1", some "task1"⟩ []).context_id, none, []⟩ :=
  c2_terminal_retry_resubmission
    (fun _ => .errorDict "task is in terminal state") "ctx0" (some "task0")
    "hello" "task is in terminal state" ⟨["old"], "ctx1", some "task1"⟩ []
    "terminal state reached" "hello" (.success []) [] rfl (by decide) (by decide)

/-- The attempt script of `c3_single_retry_counterexample`: the first
send and its retry both fail with a terminal-state error, the third
send succeeds. -/
def c3script : List StreamAttempt :=
  [.failure [] "task is in terminal state",
   .failure [] "task is in terminal state",
   .success []]

/-- Claim C3, counterexample: in streaming mode, when the retry itself
fails with a terminal-state error, the recursive handler resubmits the
same input again — three sends are issued for one user message, so a
further automatic resubmission does occur after the single retry. -/
theorem c3_single_retry_counterexample :
    ((streamTurn "hi" ⟨[], "c", some "t"⟩ c3script).2).length = 3
    ∧ ¬((streamTurn "hi" ⟨[], "c", some "t"⟩ c3script).2).length ≤ 2 := by
  decide

/-- Claim C3, amended: in non-streaming mode at most one terminal-task
retry occurs (never more than two sends per user message), but in
streaming mode the handler retries recursively — a script of n
consecutive terminal-state failures followed by a success issues n + 1
sends, one resubmission per failure, without a bound. -/
theorem c3_retry_bound_amended :
    (∀ (agent : SendCall → SendDict) (ctx : String) (task : Option String)
      (prompt : String),
      (nonStreamingSendWithRetry agent ctx task prompt).1.length ≤ 2)
    ∧ (∀ (prompt : String) (st : StreamSession) (n : ℕ),
      ((streamTurn prompt st
        (List.replicate n (.failure [] "task is in terminal state")
          ++ [.success []])).2).length = n + 1) := by
  constructor
  · intro agent ctx task prompt
    unfold nonStreamingSendWithRetry
    dsimp only
    cases hb : agent ⟨prompt, ctx, task⟩ with
    | errorDict e =>
      dsimp only
      by_cases h : isTerminalError e = true
      · rw [if_pos h]; simp
      · rw [if_neg h]; simp
    | okDict r => simp
  · intro prompt st n
    induction n generalizing st with
    | zero => simp [streamTurn]
    | succ k ih =>
      have hterm : isTerminalError "task is in terminal state" = true := by
        decide
      simp only [List.replicate, List.cons_append]
      unfold streamTurn
      dsimp only
      rw [if_pos hterm]
      simp [ih]

/-- Claim C4: a working status-update chunk with non-empty text appends
that text; an artifact-update chunk with non-empty text appends its text
as a further display line; the three-chunk stream working, working,
artifact-update collects exactly the two commentary lines followed by
the artifact line, and the saved display joins them in that order — the
artifact line is never lost. -/
theorem c4_streaming_chunk_display
    (s : StreamSession) (w1 w2 a : String)
    (hw1 : w1 ≠ "") (hw2 : w2 ≠ "") (ha : a ≠ "") :
    (processChunk s (mkWorkingChunk w1)).collected = s.collected ++ [w1]
    ∧ (processChunk s (mkArtifactChunk a)).collected = s.collected ++ [a]
    ∧ (runChunks ⟨[], s.context_id, s.task_id⟩
        [mkWorkingChunk w1, mkWorkingChunk w2, mkArtifactChunk a]).collected
      = [w1, w2, a]
    ∧ streamFinalMessage [w1, w2, a] = w1 ++ "\n\n" ++ (w2 ++ "\n\n" ++ a) := by
  refine ⟨?_, ?_, ?_, ?_⟩
  · rw [processChunk_working s w1 hw1]
  · rw [processChunk_artifact s a ha]
  · show (processChunk (processChunk (processChunk
      ⟨[], s.context_id, s.task_id⟩ (mkWorkingChunk w1)) (mkWorkingChunk w2))
      (mkArtifactChunk a)).collected = [w1, w2, a]
    rw [processChunk_working _ w1 hw1, processChunk_working _ w2 hw2,
        processChunk_artifact _ a ha]
    rfl
  · simp [streamFinalMessage, pyJoin]

/-- Witness for C4 at a concrete session and chunk texts. -/
theorem c4_streaming_chunk_display_witness :
    (processChunk ⟨["pre"], "c", none⟩ (mkWorkingChunk "w1")).collected
      = ["pre"] ++ ["w1"]
    ∧ (processChunk ⟨["pre"], "c", none⟩ (mkArtifactChunk "fin")).collected
      = ["pre"] ++ ["fin"]
    ∧ (runChunks ⟨[], "c", none⟩
        [mkWorkingChunk "w1", mkWorkingChunk "w2", mkArtifactChunk "fin"]).collected
      = ["w1", "w2", "fin"]
    ∧ streamFinalMessage ["w1", "w2", "fin"]
      = "w1" ++ "\n\n" ++ ("w2" ++ "\n\n" ++ "fin") :=
  c4_streaming_chunk_display ⟨["pre"], "c", none⟩ "w1" "w2" "fin"
    (by decide) (by decide) (by decide)

/-- Claim C5: when the model source defaults to or is set to google and
GOOGLE_API_KEY is unset, or when it is any other value and TOOL_LLM_URL
or TOOL_LLM_NAME is unset, the process exits with code 1 before the
server is constructed. -/
theorem c5_startup_credential_exit (env : Env)
    (h : (env.model_source.getD "google" = "google" ∧ env.GOOGLE_API_KEY = none)
      ∨ (env.model_source.getD "google" ≠ "google"
          ∧ (env.TOOL_LLM_URL = none ∨ env.TOOL_LLM_NAME = none))) :
    mainStartup env = .exitCode 1 := by
  unfold mainStartup credentialCheck
  rcases h with ⟨hg, hk⟩ | ⟨hng, hor⟩
  · simp [hg, hk, envFalsy]
  · by_cases hu : envFalsy env.TOOL_LLM_URL = true
    · simp [hng, hu]
    · have hu' : envFalsy env.TOOL_LLM_URL = false := by simpa using hu
      rcases hor with hurl | hname
      · rw [hurl] at hu'
        simp [envFalsy] at hu'
      · have hn : envFalsy env.TOOL_LLM_NAME = true := by rw [hname]; rfl
        simp [hng, hu', hn]

/-- Witness for C5: the empty environment exits with code 1. -/
theorem c5_startup_credential_exit_witness :
    mainStartup {} = .exitCode 1 :=
  c5_startup_credential_exit {} (Or.inl ⟨rfl, rfl⟩)

/-- Claim C6: when both card fetch attempts fail with a transport error,
`fetch_agent_card` returns `None` instead of propagating the exception,
and the connect handler surfaces the failed-to-connect message. -/
theorem c6_card_fetch_failure_surfaced (env : CardFetchEnv) (tok e1 e2 : String)
    (h1 : env.primary = .error e1) (h2 : env.fallback = .error e2) :
    fetch_agent_card env tok = none
    ∧ connectHandler (fetch_agent_card env tok) =
      .showError
        "Failed to connect to agent. Please check the URL and try again." := by
  have hf : fetch_agent_card env tok = none := by
    unfold fetch_agent_card
    rw [h1, h2]
  exact ⟨hf, by rw [hf]; rfl⟩

/-- Witness for C6 at a concrete failing fetch environment. -/
theorem c6_card_fetch_failure_surfaced_witness :
    fetch_agent_card ⟨.error "timeout", .error "refused", .ok {}⟩ "" = none
    ∧ connectHandler
        (fetch_agent_card ⟨.error "timeout", .error "refused", .ok {}⟩ "") =
      .showError
        "Failed to connect to agent. Please check the URL and try again." :=
  c6_card_fetch_failure_surfaced ⟨.error "timeout", .error "refused", .ok {}⟩
    "" "timeout" "refused" rfl rfl

/-- Claim C7: a non-error response whose shape makes the normalization
raise is caught locally: the assistant reply becomes the generic
parse-error text and it is appended to the history, so the conversation
continues. -/
theorem c7_parse_error_recovery (rd : JValue) (history : List ChatMessage)
    (e : String) (_hne : jContains rd "error" = .ok false)
    (h : parseResponse rd = .error e) :
    handleParsedResponse rd = .jstr "Error parsing response"
    ∧ afterTurnMessages history rd =
      history ++ [⟨"assistant", .jstr "Error parsing response"⟩] := by
  have hh : handleParsedResponse rd = .jstr "Error parsing response" := by
    unfold handleParsedResponse
    rw [h]
  exact ⟨hh, by unfold afterTurnMessages; rw [hh]⟩

/-- Witness for C7: a response whose `result` member is a bare string
makes `status = result.get('status', {})` raise. -/
theorem c7_parse_error_recovery_witness :
    handleParsedResponse (.jobj [("result", .jstr "x")]) =
      .jstr "Error parsing response"
    ∧ afterTurnMessages [] (.jobj [("result", .jstr "x")]) =
      [] ++ [⟨"assistant", .jstr "Error parsing response"⟩] :=
  c7_parse_error_recovery (.jobj [("result", .jstr "x")]) []
    "AttributeError: get" rfl rfl

/-- Claim C8: `send_message_to_agent` is total at its interface — every
behavior of the wrapped send maps to a dictionary, any exception is
converted to an error dict carrying the exception text, and a stream
that yields no chunks produces the no-response error dict. -/
theorem c8_send_total_error_conversion :
    (∀ e, send_message_to_agent (.raises e) = .errorDict e)
    ∧ send_message_to_agent (.streamYields []) =
        .errorDict "No response received"
    ∧ (∀ b, (∃ e, send_message_to_agent b = .errorDict e)
        ∨ (∃ r, send_message_to_agent b = .okDict r)) := by
  refine ⟨fun e => rfl, rfl, ?_⟩
  intro b
  cases hb : send_message_to_agent b with
  | errorDict e => exact .inl ⟨e, rfl⟩
  | okDict r => exact .inr ⟨r, rfl⟩

/-- Claim C9: in the streaming loop an input-required status text is
appended only when not already collected, while working status text and
artifact text are appended unconditionally, duplicates included. -/
theorem c9_input_required_dedup (s : StreamSession) (t : String) (ht : t ≠ "") :
    (processChunk s (mkInputRequiredChunk t)).collected =
      (if s.collected.contains t then s.collected else s.collected ++ [t])
    ∧ (processChunk s (mkWorkingChunk t)).collected = s.collected ++ [t]
    ∧ (processChunk s (mkArtifactChunk t)).collected = s.collected ++ [t] := by
  refine ⟨?_, ?_, ?_⟩
  · rw [processChunk_inputRequired s t ht]
  · rw [processChunk_working s t ht]
  · rw [processChunk_artifact s t ht]

/-- Witness for C9: with the text already collected, the input-required
chunk appends nothing while the working chunk appends the duplicate. -/
theorem c9_input_required_dedup_witness :
    (processChunk ⟨["dup"], "c", none⟩ (mkInputRequiredChunk "dup")).collected =
      (if ["dup"].contains "dup" then ["dup"] else ["dup"] ++ ["dup"])
    ∧ (processChunk ⟨["dup"], "c", none⟩ (mkWorkingChunk "dup")).collected =
      ["dup"] ++ ["dup"]
    ∧ (processChunk ⟨["dup"], "c", none⟩ (mkArtifactChunk "dup")).collected =
      ["dup"] ++ ["dup"] :=
  c9_input_required_dedup ⟨["dup"], "c", none⟩ "dup" (by decide)

/-- Claim C10: the clear-chat handler empties the history, adopts the
freshly generated context identifier and clears the task identifier,
and leaves the agent card, connection status and every configuration
input unchanged. -/
theorem c10_clear_chat_frame (s : AppState) (freshContext : String) :
    (clearChatHandler freshContext s).messages = []
    ∧ (clearChatHandler freshContext s).context_id = freshContext
    ∧ (clearChatHandler freshContext s).task_id = none
    ∧ (clearChatHandler freshContext s).agent_card = s.agent_card
    ∧ (clearChatHandler freshContext s).client_initialized
        = s.client_initialized
    ∧ (clearChatHandler freshContext s).base_url = s.base_url
    ∧ (clearChatHandler freshContext s).use_auth = s.use_auth
    ∧ (clearChatHandler freshContext s).auth_token = s.auth_token
    ∧ (clearChatHandler freshContext s).streaming_mode = s.streaming_mode :=
  ⟨rfl, rfl, rfl, rfl, rfl, rfl, rfl, rfl, rfl⟩

end A2ASamples
